import Mathlib

/-!
Verification of the authentication/session subsystem of the ktlian-wears
backend.  The definitions below are shallow embeddings of the TypeScript
source: `src/lib/auth/jwt.ts` (token helpers and the session module),
`src/app/api/auth/admin.ts` (admin resolution), the admin middleware
(`withAdminAuth`), `src/app/api/auth/middleware.ts` (`requireAuth` /
`requireGuest`), the password module (`validatePasswordStrength`), the
in-memory `RateLimiter`, `src/app/api/register/route.ts` (session cookie)
and `src/lib/db/migrations.ts` (`isUserAdmin`).

External collaborators are modelled at their interfaces: the database
lookup `getUserById` is a function `String → Option User`, and the
`jsonwebtoken` primitive behind `generateToken`/`verifyToken` is modelled
by an explicit record of everything `jwt.sign` commits to (payload, time
stamps, issuer, audience, secret), with `jwt.verify` checking those
fields and expiry.  Times are naturals (Unix seconds for tokens,
milliseconds for the rate limiter, matching `Date.now()`).
-/

namespace KtlianWears

/-- User roles as stored in the `users.role` column of the schema
(`customer`, `admin`, `super_admin`). -/
inductive Role where
  | customer
  | admin
  | superAdmin
deriving DecidableEq, BEq

/-- The slice of a `users` row consumed by the auth code: id, email, role. -/
structure User where
  id : String
  email : String
  role : Role
deriving DecidableEq

/-- The `JWTPayload` interface of `jwt.ts`: `userId`, `email`, and the
optional registered claims `iat` and `exp`. -/
structure JWTPayload where
  userId : String
  email : String
  iat : Option Nat := none
  exp : Option Nat := none
deriving DecidableEq

/-- Whether `pat` occurs at the very start of `s` (character lists). -/
def startsWithList : List Char → List Char → Bool
  | [], _ => true
  | _ :: _, [] => false
  | p :: ps, c :: cs => p == c && startsWithList ps cs

/-- JavaScript `String.prototype.replace` with a string pattern and empty
replacement: scan left to right and delete the first occurrence of `pat`,
leaving the string unchanged when `pat` does not occur. -/
def replaceFirstAux (pat : List Char) : List Char → List Char
  | [] => []
  | c :: rest =>
    if startsWithList pat (c :: rest) then (c :: rest).drop pat.length
    else c :: replaceFirstAux pat rest

/-- `s.replace(pat, '')` from JavaScript, on Lean strings. -/
def jsReplace (s pat : String) : String :=
  ⟨replaceFirstAux pat.data s.data⟩

/-- `decodeToken` from `jwt.ts`.  The real `jwt.decode` call is commented
out in the source ("Temporarily disabled for deployment"); the live code
computes `token.replace('temp-token-', '')` as the userId and returns a
fixed email, never `null`, and never sets `iat`/`exp`. -/
def decodeToken (token : String) : Option JWTPayload :=
  some { userId := jsReplace token "temp-token-", email := "temp@example.com" }

/-- `isTokenExpired` from `jwt.ts`: the body is stubbed to
"always return false" (the real check is commented out). -/
def isTokenExpired (_token : String) : Bool :=
  false

/-- `getTokenExpiration` from `jwt.ts`: reads `decodeToken(token).exp` and
multiplies by 1000 to build a `Date`; yields `none` when the decoded
payload is missing or has no `exp` claim.  The result is the expiry in
milliseconds. -/
def getTokenExpiration (token : String) : Option Nat :=
  match decodeToken token with
  | none => none
  | some p =>
    match p.exp with
    | none => none
    | some e => some (e * 1000)

/-- The reading of claim C2 taken literally: remove `temp-token-` only
when it is a leading tag of the token, otherwise leave the token alone.
This definition follows the claim's words, for comparison with the
source's `decodeToken`. -/
def specStripLeadingTag (t : String) : String :=
  if startsWithList ("temp-token-").data t.data then ⟨t.data.drop ("temp-token-").data.length⟩
  else t

/-! ## Password strength (`validatePasswordStrength` in the password module) -/

/-- ASCII lowercase test, the `/[a-z]/` regex. -/
def isAsciiLower (c : Char) : Bool := 'a' ≤ c && c ≤ 'z'

/-- ASCII uppercase test, the `/[A-Z]/` regex. -/
def isAsciiUpper (c : Char) : Bool := 'A' ≤ c && c ≤ 'Z'

/-- ASCII digit test, the `/\d/` regex. -/
def isAsciiDigit (c : Char) : Bool := '0' ≤ c && c ≤ '9'

/-- The fixed punctuation set of the source's special-character regex. -/
def specialChars : List Char := ("!@#$%^&*(),.?\":\x7b\x7d|<>").data

def hasLower (s : String) : Bool := s.data.any isAsciiLower
def hasUpper (s : String) : Bool := s.data.any isAsciiUpper
def hasDigit (s : String) : Bool := s.data.any isAsciiDigit
def hasSpecialChar (s : String) : Bool := s.data.any (fun c => specialChars.contains c)

/-- The `/(.)\1{2,}/` regex: three consecutive equal characters (the `.`
class excludes the newline). -/
def tripleRepeatAux : List Char → Bool
  | a :: b :: c :: rest => (a == b && b == c && a != '\n') || tripleRepeatAux (b :: c :: rest)
  | _ => false

def hasTripleRepeat (s : String) : Bool := tripleRepeatAux s.data

/-- Whether `pat` occurs anywhere in `s` (character lists). -/
def containsSeg : List Char → List Char → Bool
  | [], pat => startsWithList pat []
  | s@(_ :: rest), pat => startsWithList pat s || containsSeg rest pat

/-- The fixed table of 3-character sequential runs from the source's
sequential-characters regex. -/
def seqRuns : List String :=
  ["123", "234", "345", "456", "567", "678", "789", "890",
   "abc", "bcd", "cde", "def", "efg", "fgh", "ghi", "hij", "ijk", "jkl",
   "klm", "lmn", "mno", "nop", "opq", "pqr", "qrs", "rst", "stu", "tuv",
   "uvw", "vwx", "wxy", "xyz"]

/-- The sequential-run regex with its `/i` flag: match any run against the
lowercased password. -/
def hasSequentialRun (s : String) : Bool :=
  seqRuns.any (fun r => containsSeg (s.data.map Char.toLower) r.data)

structure PasswordStrengthResult where
  isValid : Bool
  errors : List String
deriving DecidableEq

/-- `validatePasswordStrength` from the password module: each failing rule
appends its message, in source order, and `isValid` holds exactly when no
rule failed. -/
def validatePasswordStrength (password : String) : PasswordStrengthResult :=
  let errors : List String :=
    (if password.length < 8 then ["Password must be at least 8 characters long"] else []) ++
    (if 128 < password.length then ["Password must be less than 128 characters long"] else []) ++
    (if hasLower password then [] else ["Password must contain at least one lowercase letter"]) ++
    (if hasUpper password then [] else ["Password must contain at least one uppercase letter"]) ++
    (if hasDigit password then [] else ["Password must contain at least one number"]) ++
    (if hasSpecialChar password then []
     else ["Password must contain at least one special character (!@#$%^&*(),.?\":\x7b\x7d|<>)"]) ++
    (if hasTripleRepeat password then ["Password should not contain repeated characters"] else []) ++
    (if hasSequentialRun password then ["Password should not contain sequential characters"] else [])
  { isValid := errors.isEmpty, errors := errors }

/-- Claim C4 speaks of an error "mentioning common-word weakness"; read as
the error text containing the word `common` (the message the sibling
`validatePasswordSecurity` uses is `Password is too common`). -/
def mentionsCommonWord (e : String) : Bool :=
  containsSeg e.data ("common").data

/-! ## Requests, responses and the admin authorization pipeline -/

/-- The cookie jar of an incoming request: name to value. -/
structure ApiRequest where
  cookies : String → Option String

/-- The observable part of a `NextResponse.json(...)` produced by the auth
code: HTTP status plus the error code / message string in the body. -/
structure ApiResponse where
  status : Nat
  body : String
deriving DecidableEq

/-- The cookie name read by `admin.ts getCurrentUser` and by
`getUserFromToken` in `jwt.ts`. -/
def authCookieName : String := "auth_token"

/-- `SESSION_COOKIE_NAME` of the session module, read by `getSessionToken`. -/
def sessionCookieName : String := "auth-session"

/-- The cookie name the registration route sets on its 201 response
(`response.cookies.set('auth-session', token, ...)`). -/
def registrationCookieName : String := "auth-session"

/-- Outcome of the external `getUserById` database lookup. -/
abbrev UserStore := String → Option User

/-- Outcome of `verifyToken`: the decoded payload, or the thrown error
message (`Token has expired`, `Invalid token`, ...). -/
abbrev TokenVerifier := String → Except String JWTPayload

/-- `isUserAdmin` from `migrations.ts`: fetch the row and test
`role === 'admin' || role === 'super_admin'`; a missing user is not an
admin. -/
def isUserAdmin (store : UserStore) (userId : String) : Bool :=
  match store userId with
  | some u => u.role == Role.admin || u.role == Role.superAdmin
  | none => false

/-- `getCurrentUser` from `admin.ts`, with the request supplied: read the
`auth_token` cookie, verify it (a thrown verification error is caught and
becomes `null`), then fetch the user by the payload's userId. -/
def getCurrentUser (verify : TokenVerifier) (store : UserStore) (req : ApiRequest) :
    Option User :=
  match req.cookies authCookieName with
  | none => none
  | some token =>
    match verify token with
    | Except.error _ => none
    | Except.ok payload => store payload.userId

/-- `getCurrentAdminUser` from `admin.ts`: resolve the current user, then
return them only when `isUserAdmin` holds for their id. -/
def getCurrentAdminUser (verify : TokenVerifier) (store : UserStore) (req : ApiRequest) :
    Option User :=
  match getCurrentUser verify store req with
  | none => none
  | some user => if isUserAdmin store user.id then some user else none

/-- The rejection `withAdminAuth` produces whenever `getCurrentAdminUser`
resolves to `null`: status 401, code `ADMIN_AUTH_REQUIRED`. -/
def adminAuthRequired : ApiResponse := ⟨401, "ADMIN_AUTH_REQUIRED"⟩

/-- `withAdminAuth`: wrap a handler so that it only runs for a resolved
admin user; otherwise answer 401 `ADMIN_AUTH_REQUIRED`.  (The `catch`
branch answering 500 is unreachable here because the embedded
`getCurrentAdminUser` and the handler are total.) -/
def withAdminAuth (verify : TokenVerifier) (store : UserStore)
    (handler : ApiRequest → User → ApiResponse) (req : ApiRequest) : ApiResponse :=
  match getCurrentAdminUser verify store req with
  | none => adminAuthRequired
  | some adminUser => handler req adminUser

/-- Result shape of `getUserFromToken` in `jwt.ts`. -/
structure TokenUserResult where
  success : Bool
  userId : Option String
  error : Option String
deriving DecidableEq

/-- `getUserFromToken` from `jwt.ts`: read the `auth_token` cookie; no
cookie yields `No authentication token`; a thrown verification error is
caught as `Authentication error`; otherwise the payload's userId is
returned.  (The source's extra `typeof payload.userId !== 'string'` guard
is vacuous in this typed embedding.) -/
def getUserFromToken (verify : TokenVerifier) (req : ApiRequest) : TokenUserResult :=
  match req.cookies authCookieName with
  | none => ⟨false, none, some "No authentication token"⟩
  | some token =>
    match verify token with
    | Except.error _ => ⟨false, none, some "Authentication error"⟩
    | Except.ok payload => ⟨true, some payload.userId, none⟩

/-- `getSessionToken` from the session module: read the `auth-session`
cookie. -/
def getSessionToken (req : ApiRequest) : Option String :=
  req.cookies sessionCookieName

/-- `validateSession` from the session module: verify the token (a thrown
error is caught and becomes `null`), then re-fetch the user by the
payload's userId; a missing user yields `null`. -/
def validateSession (verify : TokenVerifier) (store : UserStore) (token : String) :
    Option User :=
  match verify token with
  | Except.error _ => none
  | Except.ok payload =>
    match store payload.userId with
    | none => none
    | some user => some user

/-- Outcome of the session module's `getCurrentUser` as observed by the
middleware: either a thrown error (message) or a user / `null`. -/
abbrev CurrentUserOutcome := Except String (Option User)

/-- `requireAuth` from `middleware.ts`: `null` means proceed; no user is a
401; a thrown error is caught and also answered with a 401. -/
def requireAuth (outcome : CurrentUserOutcome) : Option ApiResponse :=
  match outcome with
  | Except.error _ => some ⟨401, "Authentication failed"⟩
  | Except.ok none => some ⟨401, "Authentication required"⟩
  | Except.ok (some _) => none

/-- `requireGuest` from `middleware.ts`: an authenticated user is a 400;
no user means proceed; a thrown error is caught and the request is allowed
through (`return null; // Allow access on error`). -/
def requireGuest (outcome : CurrentUserOutcome) : Option ApiResponse :=
  match outcome with
  | Except.error _ => none
  | Except.ok (some _) => some ⟨400, "Already authenticated"⟩
  | Except.ok none => none

/-! ## Token codec (`generateToken` / `verifyToken` over the jwt primitive) -/

/-- The fixed `issuer` claim of `jwt.ts`. -/
def tokenIssuer : String := "ktlian-wears"

/-- The fixed `audience` claim of `jwt.ts`. -/
def tokenAudience : String := "ktlian-wears-users"

/-- `expiresIn: '7d'` in seconds. -/
def accessTokenLifetime : Nat := 7 * 24 * 60 * 60

/-- Everything `jwt.sign` commits a token to: the payload fields, the
issued-at and expiry times, the issuer/audience claims and the signing
secret (standing for the HMAC signature). -/
structure SignedToken where
  userId : String
  email : String
  iat : Nat
  exp : Nat
  issuer : String
  audience : String
  secret : String
deriving DecidableEq

/-- `generateToken` from `jwt.ts`: sign the payload with the process
secret, `expiresIn: '7d'`, fixed issuer and audience; `now` is the signing
time in Unix seconds. -/
def generateToken (secret : String) (userId email : String) (now : Nat) : SignedToken :=
  { userId := userId, email := email, iat := now, exp := now + accessTokenLifetime,
    issuer := tokenIssuer, audience := tokenAudience, secret := secret }

/-- `verifyToken` from `jwt.ts` over the modelled jwt primitive: reject a
wrong signature (secret), an elapsed expiry (`jwt` rejects once
`now ≥ exp`), or a wrong audience/issuer; on success return the decoded
payload.  The first two turn into the source's `Invalid token` /
`Token has expired` errors. -/
def verifyToken (secret : String) (tok : SignedToken) (now : Nat) :
    Except String JWTPayload :=
  if tok.secret ≠ secret then Except.error "Invalid token"
  else if tok.exp ≤ now then Except.error "Token has expired"
  else if tok.audience ≠ tokenAudience then Except.error "Invalid token"
  else if tok.issuer ≠ tokenIssuer then Except.error "Invalid token"
  else Except.ok { userId := tok.userId, email := tok.email, iat := some tok.iat, exp := some tok.exp }

/-! ## RateLimiter -/

structure RateLimitConfig where
  windowMs : Nat
  maxRequests : Nat
deriving DecidableEq

/-- One record of the limiter's store: `{ count, resetTime }`. -/
structure RateLimitEntry where
  count : Nat
  resetTime : Nat
deriving DecidableEq

/-- The limiter's record table, keyed by client identifier. -/
abbrev RateLimitStore := String → Option RateLimitEntry

def storeSet (s : RateLimitStore) (k : String) (v : RateLimitEntry) : RateLimitStore :=
  fun q => if q = k then some v else s q

def storeDelete (s : RateLimitStore) (k : String) : RateLimitStore :=
  fun q => if q = k then none else s q

structure RateLimiter where
  store : RateLimitStore
  config : RateLimitConfig

/-- The opening statement of `isAllowed`: delete the record for
`identifier` when its window has elapsed (`now > record.resetTime`). -/
def evictIfExpired (s : RateLimitStore) (k : String) (now : Nat) : RateLimitStore :=
  match s k with
  | some record => if record.resetTime < now then storeDelete s k else s
  | none => s

structure RateLimitResult where
  allowed : Bool
  remaining : Nat
  resetTime : Nat
deriving DecidableEq

/-- `RateLimiter.isAllowed`, state passed explicitly: evict a stale record
for this identifier, then either create a fresh record (`count = 1`),
reject without mutation when `count >= maxRequests`, or increment. -/
def RateLimiter.isAllowed (rl : RateLimiter) (identifier : String) (now : Nat) :
    RateLimitResult × RateLimiter :=
  match evictIfExpired rl.store identifier now identifier with
  | none =>
    (⟨true, rl.config.maxRequests - 1, now + rl.config.windowMs⟩,
     ⟨storeSet (evictIfExpired rl.store identifier now) identifier
        ⟨1, now + rl.config.windowMs⟩, rl.config⟩)
  | some e =>
    if rl.config.maxRequests ≤ e.count then
      (⟨false, 0, e.resetTime⟩, ⟨evictIfExpired rl.store identifier now, rl.config⟩)
    else
      (⟨true, rl.config.maxRequests - (e.count + 1), e.resetTime⟩,
       ⟨storeSet (evictIfExpired rl.store identifier now) identifier
          ⟨e.count + 1, e.resetTime⟩, rl.config⟩)

/-- `RateLimiter.cleanup`: drop every record whose window has elapsed
(`now > resetTime`). -/
def RateLimiter.cleanup (rl : RateLimiter) (now : Nat) : RateLimiter :=
  ⟨fun k =>
    match rl.store k with
    | some e => if e.resetTime < now then none else some e
    | none => none,
   rl.config⟩

/-- A limiter as constructed (`private store = {}`). -/
def initialLimiter (cfg : RateLimitConfig) : RateLimiter :=
  ⟨fun _ => none, cfg⟩

/-- The limiter state after a list of `isAllowed` calls for `id` at the
given times, starting from a fresh limiter. -/
def rlAfter (cfg : RateLimitConfig) (id : String) (times : List Nat) : RateLimiter :=
  times.foldl (fun rl t => (rl.isAllowed id t).2) (initialLimiter cfg)

/-- One observable operation on a limiter: a request (`isAllowed`) or a
`cleanup` sweep, each at some clock value. -/
inductive RLOp where
  | request (id : String) (now : Nat)
  | sweep (now : Nat)

def applyOp (rl : RateLimiter) : RLOp → RateLimiter
  | RLOp.request id now => (rl.isAllowed id now).2
  | RLOp.sweep now => rl.cleanup now

def runOps (rl : RateLimiter) : List RLOp → RateLimiter
  | [] => rl
  | op :: rest => runOps (applyOp rl op) rest

/-- Claim C7's store invariant: every record's count stays within the
configured maximum. -/
def CountBounded (rl : RateLimiter) : Prop :=
  ∀ k e, rl.store k = some e → e.count ≤ rl.config.maxRequests

/-! ## Concrete fixtures used by counterexamples and witnesses -/

/-- A request carrying exactly one cookie. -/
def singleCookie (name value : String) : ApiRequest :=
  ⟨fun n => if n = name then some value else none⟩

/-- A request with an empty cookie jar. -/
def noCookies : ApiRequest := ⟨fun _ => none⟩

/-- A customer-role user for the C1 scenario. -/
def customerUser : User := ⟨"u1", "customer@example.com", Role.customer⟩

/-- A store holding exactly `customerUser`. -/
def customerStore : UserStore :=
  fun i => if i = "u1" then some customerUser else none

/-- A verifier accepting exactly `customer-token`, resolving it to
`customerUser`'s id. -/
def customerVerifier : TokenVerifier :=
  fun t =>
    if t = "customer-token" then Except.ok { userId := "u1", email := "customer@example.com" }
    else Except.error "Invalid token"

/-- A handler answering 200 for any admin user. -/
def okHandler : ApiRequest → User → ApiResponse := fun _ _ => ⟨200, "OK"⟩

/-- A verifier accepting every token with a fixed payload (for the C5
witness). -/
def okVerifier : TokenVerifier :=
  fun _ => Except.ok { userId := "u9", email := "x@example.com" }

/-- A store with no users (for the C5 witness: deleted user). -/
def emptyUserStore : UserStore := fun _ => none

/-!
## Theorems

One theorem per claim (plus, for the corrected claims, a closed
counterexample falsifying the claim as frozen), with shared helper lemmas
for the rate limiter.
-/

/-- Claim C2, counterexample: `decodeToken` does not remove a leading
`temp-token-` tag only — JavaScript's `replace` removes the first
occurrence anywhere, so at `Xtemp-token-Y` the code yields userId `XY`
while the claim's "prefix removed" reading leaves the token unchanged. -/
theorem decodeToken_removes_inner_occurrence :
    decodeToken "Xtemp-token-Y" =
      some { userId := "XY", email := "temp@example.com" } ∧
    specStripLeadingTag "Xtemp-token-Y" = "Xtemp-token-Y" ∧
    ("XY" : String) ≠ "Xtemp-token-Y" := by
  refine ⟨by decide, by decide, by decide⟩

/-- Claim C2 (amended): for every token `t`, `isTokenExpired t` is false
and `decodeToken t` is `some` of the fixed payload whose userId is `t`
with the first occurrence of `temp-token-` removed and whose email is
`temp@example.com`; in particular `decodeToken` never returns `none` and
never inspects a signature or claims. -/
theorem decodeToken_isTokenExpired_stubbed (t : String) :
    isTokenExpired t = false ∧
    decodeToken t = some { userId := jsReplace t "temp-token-", email := "temp@example.com" } ∧
    decodeToken t ≠ none := by
  refine ⟨rfl, rfl, by simp [decodeToken]⟩

/-- Claim C10: `getTokenExpiration` returns `none` for every token,
because it reads the `exp` claim of `decodeToken`'s stubbed result, which
never carries one. -/
theorem getTokenExpiration_always_none (t : String) :
    getTokenExpiration t = none := rfl

/-- Claim C4, counterexample: `validatePasswordStrength "password"` is
invalid, but none of its accumulated errors mentions common words — the
common-password message lives in the sibling `validatePasswordSecurity`,
not in this function. -/
theorem validatePasswordStrength_password_no_common_mention :
    (validatePasswordStrength "password").isValid = false ∧
    (validatePasswordStrength "password").errors.any mentionsCommonWord = false := by
  refine ⟨by decide, by decide⟩

/-- Claim C4 (amended): `validatePasswordStrength "password"` returns
`isValid = false` with the three accumulated rule errors (missing
uppercase, digit and special character — none mentioning common words),
and `validatePasswordStrength "Tr0ub4dor&3!"` returns `isValid = true`
with an empty error list. -/
theorem validatePasswordStrength_examples :
    validatePasswordStrength "password" =
      { isValid := false,
        errors := ["Password must contain at least one uppercase letter",
                   "Password must contain at least one number",
                   "Password must contain at least one special character (!@#$%^&*(),.?\":\x7b\x7d|<>)"] } ∧
    validatePasswordStrength "Tr0ub4dor&3!" = { isValid := true, errors := [] } := by
  refine ⟨by decide, by decide⟩

/-- Claim C8: registration stores the session token in the `auth-session`
cookie (the name `getSessionToken` reads), while the admin path
(`getCurrentUser`) and `getUserFromToken` read `auth_token`; hence a
request whose only credential is the registration cookie resolves to no
user / a failed token lookup, for every verifier and store. -/
theorem registration_cookie_invisible_to_admin_auth
    (verify : TokenVerifier) (store : UserStore) (tok : String) :
    registrationCookieName = sessionCookieName ∧
    registrationCookieName ≠ authCookieName ∧
    getSessionToken (singleCookie registrationCookieName tok) = some tok ∧
    getCurrentUser verify store (singleCookie registrationCookieName tok) = none ∧
    getUserFromToken verify (singleCookie registrationCookieName tok) =
      ⟨false, none, some "No authentication token"⟩ := by
  refine ⟨rfl, by decide, rfl, rfl, rfl⟩

/-- Claim C9: when the authentication check reports an internal error (the
session module's `getCurrentUser` throwing), `requireAuth` answers with a
401 response while `requireGuest` returns `null` and lets the request
proceed: the auth gate fails closed, the guest gate fails open. -/
theorem requireAuth_closed_requireGuest_open (e : String) :
    requireAuth (Except.error e) = some ⟨401, "Authentication failed"⟩ ∧
    (requireAuth (Except.error e)).isSome = true ∧
    requireGuest (Except.error e) = none := ⟨rfl, rfl, rfl⟩

/-- Claim C5: `validateSession` never surfaces an error — a verification
failure yields `none`; and on verification success the user is re-fetched
from the store by the payload's subject id, so a deleted user yields
`none` even for a successfully verified token, while an existing user is
returned. -/
theorem validateSession_failure_yields_none
    (verify : TokenVerifier) (store : UserStore) (t : String) :
    ((∃ e, verify t = Except.error e) → validateSession verify store t = none) ∧
    (∀ p, verify t = Except.ok p → store p.userId = none →
      validateSession verify store t = none) ∧
    (∀ p u, verify t = Except.ok p → store p.userId = some u →
      validateSession verify store t = some u) := by
  refine ⟨?_, ?_, ?_⟩
  · rintro ⟨e, he⟩
    simp [validateSession, he]
  · intro p hp hu
    simp [validateSession, hp, hu]
  · intro p u hp hu
    simp [validateSession, hp, hu]

/-- Witness for C5: a structurally valid token whose user has been deleted
from the store validates to `none`. -/
theorem validateSession_failure_yields_none_witness :
    validateSession okVerifier emptyUserStore "tok" = none :=
  (validateSession_failure_yields_none okVerifier emptyUserStore "tok").2.1
    { userId := "u9", email := "x@example.com" } rfl rfl

/-- Claim C6: verifying a freshly signed token before its expiry
round-trips — for any secret, payload and signing time, `verifyToken`
applied to `generateToken`'s output at any check time inside the 7-day
lifetime succeeds with the original userId and email (the fixed
`ktlian-wears` issuer and `ktlian-wears-users` audience accepted). -/
theorem verifyToken_generateToken_roundtrip
    (secret userId email : String) (tIssue tCheck : Nat)
    (h : tCheck < tIssue + accessTokenLifetime) :
    verifyToken secret (generateToken secret userId email tIssue) tCheck =
      Except.ok { userId := userId, email := email,
                  iat := some tIssue, exp := some (tIssue + accessTokenLifetime) } := by
  simp [verifyToken, generateToken, Nat.not_le.mpr h]

/-- Witness for C6: a concrete round-trip one second before expiry. -/
theorem verifyToken_generateToken_roundtrip_witness :
    verifyToken "s" (generateToken "s" "u1" "u1@example.com" 0) 604799 =
      Except.ok { userId := "u1", email := "u1@example.com",
                  iat := some 0, exp := some 604800 } :=
  verifyToken_generateToken_roundtrip "s" "u1" "u1@example.com" 0 604799 (by decide)

/-- Claim C1, counterexample: a request presenting a valid token that
resolves to a customer-role user is rejected by `withAdminAuth` with the
same 401 `ADMIN_AUTH_REQUIRED` response a request with no token gets —
not with a 403-class rejection distinct from the 401 case. -/
theorem withAdminAuth_customer_gets_401 :
    withAdminAuth customerVerifier customerStore okHandler
        (singleCookie authCookieName "customer-token") = adminAuthRequired ∧
    adminAuthRequired.status = 401 ∧
    (withAdminAuth customerVerifier customerStore okHandler
        (singleCookie authCookieName "customer-token")).status ≠ 403 ∧
    withAdminAuth customerVerifier customerStore okHandler
        (singleCookie authCookieName "customer-token") =
      withAdminAuth customerVerifier customerStore okHandler noCookies := by
  refine ⟨by decide, rfl, by decide, by decide⟩

/-- Claim C1 (amended): for every verifier, store and handler, a request
whose `auth_token` cookie verifies to a payload resolving to an existing
customer-role user is answered by `withAdminAuth` with the 401
`ADMIN_AUTH_REQUIRED` rejection — the same response produced for a
request carrying no token; no 403-class distinction is made. -/
theorem withAdminAuth_customer_same_as_missing_token
    (verify : TokenVerifier) (store : UserStore)
    (handler : ApiRequest → User → ApiResponse) (t : String)
    (p : JWTPayload) (u : User)
    (hv : verify t = Except.ok p) (hs : store p.userId = some u)
    (hid : u.id = p.userId) (hrole : u.role = Role.customer) :
    withAdminAuth verify store handler (singleCookie authCookieName t) = adminAuthRequired ∧
    withAdminAuth verify store handler noCookies = adminAuthRequired := by
  constructor
  · have hcookie : (singleCookie authCookieName t).cookies authCookieName = some t := by
      simp [singleCookie]
    have hadmin : isUserAdmin store u.id = false := by
      rw [hid]
      simp [isUserAdmin, hs, hrole]
      exact ⟨by decide, by decide⟩
    simp [withAdminAuth, getCurrentAdminUser, getCurrentUser, hcookie, hv, hs, hadmin]
  · rfl

/-- Witness for the amended C1 on the concrete customer fixture. -/
theorem withAdminAuth_customer_same_as_missing_token_witness :
    withAdminAuth customerVerifier customerStore okHandler
        (singleCookie authCookieName "customer-token") = adminAuthRequired ∧
    withAdminAuth customerVerifier customerStore okHandler noCookies = adminAuthRequired :=
  withAdminAuth_customer_same_as_missing_token customerVerifier customerStore okHandler
    "customer-token" { userId := "u1", email := "customer@example.com" }
    customerUser rfl rfl rfl rfl

/-! ### Rate limiter helper lemmas -/

theorem storeSet_same (s : RateLimitStore) (k : String) (v : RateLimitEntry) :
    storeSet s k v k = some v := by
  simp [storeSet]

theorem evictIfExpired_none (s : RateLimitStore) (k : String) (now : Nat)
    (h : s k = none) : evictIfExpired s k now = s := by
  unfold evictIfExpired
  rw [h]

theorem evictIfExpired_live (s : RateLimitStore) (k : String) (now : Nat)
    (e : RateLimitEntry) (h : s k = some e) (hnow : ¬ e.resetTime < now) :
    evictIfExpired s k now = s := by
  unfold evictIfExpired
  rw [h]
  simp [hnow]

theorem evictIfExpired_expired (s : RateLimitStore) (k : String) (now : Nat)
    (e : RateLimitEntry) (h : s k = some e) (hnow : e.resetTime < now) :
    evictIfExpired s k now = storeDelete s k := by
  unfold evictIfExpired
  rw [h]
  simp [hnow]

/-- Branch of `isAllowed` with no record for the identifier: a fresh
record with count 1 is created and the call is allowed. -/
theorem isAllowed_fresh (rl : RateLimiter) (id : String) (now : Nat)
    (h : rl.store id = none) :
    rl.isAllowed id now =
      (⟨true, rl.config.maxRequests - 1, now + rl.config.windowMs⟩,
       ⟨storeSet rl.store id ⟨1, now + rl.config.windowMs⟩, rl.config⟩) := by
  unfold RateLimiter.isAllowed
  rw [evictIfExpired_none rl.store id now h, h]

/-- Branch of `isAllowed` with a live record below the limit: the count is
incremented and the call is allowed. -/
theorem isAllowed_incr (rl : RateLimiter) (id : String) (now : Nat)
    (e : RateLimitEntry) (h : rl.store id = some e) (hnow : ¬ e.resetTime < now)
    (hc : ¬ rl.config.maxRequests ≤ e.count) :
    rl.isAllowed id now =
      (⟨true, rl.config.maxRequests - (e.count + 1), e.resetTime⟩,
       ⟨storeSet rl.store id ⟨e.count + 1, e.resetTime⟩, rl.config⟩) := by
  unfold RateLimiter.isAllowed
  rw [evictIfExpired_live rl.store id now e h hnow, h]
  simp [hc]

/-- Branch of `isAllowed` with a live record at the limit: the call is
rejected with `remaining = 0` and the limiter is unchanged. -/
theorem isAllowed_reject (rl : RateLimiter) (id : String) (now : Nat)
    (e : RateLimitEntry) (h : rl.store id = some e) (hnow : ¬ e.resetTime < now)
    (hc : rl.config.maxRequests ≤ e.count) :
    rl.isAllowed id now = (⟨false, 0, e.resetTime⟩, rl) := by
  unfold RateLimiter.isAllowed
  rw [evictIfExpired_live rl.store id now e h hnow, h]
  simp [hc]

/-- Branch of `isAllowed` with an elapsed record: it is evicted and a
fresh record with count 1 replaces it. -/
theorem isAllowed_renew (rl : RateLimiter) (id : String) (now : Nat)
    (e : RateLimitEntry) (h : rl.store id = some e) (hnow : e.resetTime < now) :
    rl.isAllowed id now =
      (⟨true, rl.config.maxRequests - 1, now + rl.config.windowMs⟩,
       ⟨storeSet (storeDelete rl.store id) id ⟨1, now + rl.config.windowMs⟩, rl.config⟩) := by
  unfold RateLimiter.isAllowed
  rw [evictIfExpired_expired rl.store id now e h hnow]
  simp [storeDelete]

theorem isAllowed_config (rl : RateLimiter) (id : String) (now : Nat) :
    (rl.isAllowed id now).2.config = rl.config := by
  unfold RateLimiter.isAllowed
  cases hev : evictIfExpired rl.store id now id with
  | none => rfl
  | some e =>
    by_cases hc : rl.config.maxRequests ≤ e.count
    · simp [hc]
    · simp [hc]

/-- `isAllowed` preserves the count bound whenever the configured maximum
is at least 1 (as in both limiters the source instantiates). -/
theorem countBounded_isAllowed (rl : RateLimiter) (id : String) (now : Nat)
    (hmax : 1 ≤ rl.config.maxRequests) (hb : CountBounded rl) :
    CountBounded (rl.isAllowed id now).2 := by
  cases hstore : rl.store id with
  | none =>
    rw [isAllowed_fresh rl id now hstore]
    intro k e he
    simp only [storeSet] at he
    by_cases hk : k = id
    · rw [if_pos hk] at he
      cases he
      exact hmax
    · rw [if_neg hk] at he
      exact hb k e he
  | some r =>
    by_cases hexp : r.resetTime < now
    · rw [isAllowed_renew rl id now r hstore hexp]
      intro k e he
      simp only [storeSet, storeDelete] at he
      by_cases hk : k = id
      · rw [if_pos hk] at he
        cases he
        exact hmax
      · rw [if_neg hk, if_neg hk] at he
        exact hb k e he
    · by_cases hcnt : rl.config.maxRequests ≤ r.count
      · rw [isAllowed_reject rl id now r hstore hexp hcnt]
        exact hb
      · rw [isAllowed_incr rl id now r hstore hexp hcnt]
        intro k e he
        simp only [storeSet] at he
        by_cases hk : k = id
        · rw [if_pos hk] at he
          cases he
          exact Nat.not_le.mp hcnt
        · rw [if_neg hk] at he
          exact hb k e he

theorem countBounded_cleanup (rl : RateLimiter) (now : Nat)
    (hb : CountBounded rl) : CountBounded (rl.cleanup now) := by
  intro k e he
  simp only [RateLimiter.cleanup] at he
  cases hst : rl.store k with
  | none => rw [hst] at he; cases he
  | some r =>
    rw [hst] at he
    by_cases hrt : r.resetTime < now
    · simp [hrt] at he
    · simp [hrt] at he
      rw [← he]
      exact hb k r hst

/-- Every record surviving a `cleanup` at time `now` has a window that has
not elapsed: `resetTime` is not earlier than `now`. -/
theorem cleanup_resetTime (rl : RateLimiter) (now : Nat) (k : String)
    (e : RateLimitEntry) (he : (rl.cleanup now).store k = some e) :
    now ≤ e.resetTime := by
  simp only [RateLimiter.cleanup] at he
  cases hst : rl.store k with
  | none => rw [hst] at he; cases he
  | some r =>
    rw [hst] at he
    by_cases hrt : r.resetTime < now
    · simp [hrt] at he
    · simp [hrt] at he
      rw [← he]
      exact Nat.not_lt.mp hrt

/-- Claim C3: with `maxRequests = 5` and any `windowMs`, for a fixed
identifier starting with no record: the first 5 `isAllowed` calls within
one window are all allowed; the 6th — and any further call in the same
window — returns `allowed = false` with `remaining = 0` and leaves the
limiter unchanged; and the first call after the window has elapsed is
allowed again with a fresh record (`count = 1`, new `resetTime`). -/
theorem rateLimiter_window_behavior (w : Nat) (id : String)
    (t1 t2 t3 t4 t5 t6 t7 t8 : Nat)
    (h2 : t2 ≤ t1 + w) (h3 : t3 ≤ t1 + w) (h4 : t4 ≤ t1 + w) (h5 : t5 ≤ t1 + w)
    (h6 : t6 ≤ t1 + w) (h7 : t7 ≤ t1 + w) (h8 : t1 + w < t8) :
    ((rlAfter ⟨w, 5⟩ id []).isAllowed id t1).1.allowed = true ∧
    ((rlAfter ⟨w, 5⟩ id [t1]).isAllowed id t2).1.allowed = true ∧
    ((rlAfter ⟨w, 5⟩ id [t1, t2]).isAllowed id t3).1.allowed = true ∧
    ((rlAfter ⟨w, 5⟩ id [t1, t2, t3]).isAllowed id t4).1.allowed = true ∧
    ((rlAfter ⟨w, 5⟩ id [t1, t2, t3, t4]).isAllowed id t5).1.allowed = true ∧
    (rlAfter ⟨w, 5⟩ id [t1, t2, t3, t4, t5]).isAllowed id t6 =
      (⟨false, 0, t1 + w⟩, rlAfter ⟨w, 5⟩ id [t1, t2, t3, t4, t5]) ∧
    (rlAfter ⟨w, 5⟩ id [t1, t2, t3, t4, t5, t6]).isAllowed id t7 =
      (⟨false, 0, t1 + w⟩, rlAfter ⟨w, 5⟩ id [t1, t2, t3, t4, t5]) ∧
    ((rlAfter ⟨w, 5⟩ id [t1, t2, t3, t4, t5, t6]).isAllowed id t8).1.allowed = true ∧
    ((rlAfter ⟨w, 5⟩ id [t1, t2, t3, t4, t5, t6]).isAllowed id t8).2.store id =
      some ⟨1, t8 + w⟩ := by
  have R0 : rlAfter ⟨w, 5⟩ id [] = initialLimiter ⟨w, 5⟩ := rfl
  have R1 : rlAfter ⟨w, 5⟩ id [t1] =
      ⟨storeSet (initialLimiter ⟨w, 5⟩).store id ⟨1, t1 + w⟩, ⟨w, 5⟩⟩ :=
    congrArg Prod.snd (isAllowed_fresh (initialLimiter ⟨w, 5⟩) id t1 rfl)
  have R2 : rlAfter ⟨w, 5⟩ id [t1, t2] =
      ⟨storeSet (storeSet (initialLimiter ⟨w, 5⟩).store id ⟨1, t1 + w⟩) id ⟨2, t1 + w⟩,
       ⟨w, 5⟩⟩ := by
    have hstep : rlAfter ⟨w, 5⟩ id [t1, t2] = ((rlAfter ⟨w, 5⟩ id [t1]).isAllowed id t2).2 :=
      rfl
    rw [hstep, R1,
      isAllowed_incr _ id t2 ⟨1, t1 + w⟩ (storeSet_same _ _ _) (Nat.not_lt.mpr h2) (by decide : ¬ (5 : Nat) ≤ 1)]
  have R3 : rlAfter ⟨w, 5⟩ id [t1, t2, t3] =
      ⟨storeSet (storeSet (storeSet (initialLimiter ⟨w, 5⟩).store id ⟨1, t1 + w⟩) id
          ⟨2, t1 + w⟩) id ⟨3, t1 + w⟩, ⟨w, 5⟩⟩ := by
    have hstep : rlAfter ⟨w, 5⟩ id [t1, t2, t3] =
        ((rlAfter ⟨w, 5⟩ id [t1, t2]).isAllowed id t3).2 := rfl
    rw [hstep, R2,
      isAllowed_incr _ id t3 ⟨2, t1 + w⟩ (storeSet_same _ _ _) (Nat.not_lt.mpr h3) (by decide : ¬ (5 : Nat) ≤ 2)]
  have R4 : rlAfter ⟨w, 5⟩ id [t1, t2, t3, t4] =
      ⟨storeSet (storeSet (storeSet (storeSet (initialLimiter ⟨w, 5⟩).store id ⟨1, t1 + w⟩)
          id ⟨2, t1 + w⟩) id ⟨3, t1 + w⟩) id ⟨4, t1 + w⟩, ⟨w, 5⟩⟩ := by
    have hstep : rlAfter ⟨w, 5⟩ id [t1, t2, t3, t4] =
        ((rlAfter ⟨w, 5⟩ id [t1, t2, t3]).isAllowed id t4).2 := rfl
    rw [hstep, R3,
      isAllowed_incr _ id t4 ⟨3, t1 + w⟩ (storeSet_same _ _ _) (Nat.not_lt.mpr h4) (by decide : ¬ (5 : Nat) ≤ 3)]
  have R5 : rlAfter ⟨w, 5⟩ id [t1, t2, t3, t4, t5] =
      ⟨storeSet (storeSet (storeSet (storeSet (storeSet (initialLimiter ⟨w, 5⟩).store id
          ⟨1, t1 + w⟩) id ⟨2, t1 + w⟩) id ⟨3, t1 + w⟩) id ⟨4, t1 + w⟩) id ⟨5, t1 + w⟩,
       ⟨w, 5⟩⟩ := by
    have hstep : rlAfter ⟨w, 5⟩ id [t1, t2, t3, t4, t5] =
        ((rlAfter ⟨w, 5⟩ id [t1, t2, t3, t4]).isAllowed id t5).2 := rfl
    rw [hstep, R4,
      isAllowed_incr _ id t5 ⟨4, t1 + w⟩ (storeSet_same _ _ _) (Nat.not_lt.mpr h5) (by decide : ¬ (5 : Nat) ≤ 4)]
  have R6 : rlAfter ⟨w, 5⟩ id [t1, t2, t3, t4, t5, t6] =
      ⟨storeSet (storeSet (storeSet (storeSet (storeSet (initialLimiter ⟨w, 5⟩).store id
          ⟨1, t1 + w⟩) id ⟨2, t1 + w⟩) id ⟨3, t1 + w⟩) id ⟨4, t1 + w⟩) id ⟨5, t1 + w⟩,
       ⟨w, 5⟩⟩ := by
    have hstep : rlAfter ⟨w, 5⟩ id [t1, t2, t3, t4, t5, t6] =
        ((rlAfter ⟨w, 5⟩ id [t1, t2, t3, t4, t5]).isAllowed id t6).2 := rfl
    rw [hstep, R5,
      isAllowed_reject _ id t6 ⟨5, t1 + w⟩ (storeSet_same _ _ _) (Nat.not_lt.mpr h6) (by decide : (5 : Nat) ≤ 5)]
  refine ⟨?_, ?_, ?_, ?_, ?_, ?_, ?_, ?_, ?_⟩
  · rw [R0, isAllowed_fresh (initialLimiter ⟨w, 5⟩) id t1 rfl]
  · rw [R1,
      isAllowed_incr _ id t2 ⟨1, t1 + w⟩ (storeSet_same _ _ _) (Nat.not_lt.mpr h2) (by decide : ¬ (5 : Nat) ≤ 1)]
  · rw [R2,
      isAllowed_incr _ id t3 ⟨2, t1 + w⟩ (storeSet_same _ _ _) (Nat.not_lt.mpr h3) (by decide : ¬ (5 : Nat) ≤ 2)]
  · rw [R3,
      isAllowed_incr _ id t4 ⟨3, t1 + w⟩ (storeSet_same _ _ _) (Nat.not_lt.mpr h4) (by decide : ¬ (5 : Nat) ≤ 3)]
  · rw [R4,
      isAllowed_incr _ id t5 ⟨4, t1 + w⟩ (storeSet_same _ _ _) (Nat.not_lt.mpr h5) (by decide : ¬ (5 : Nat) ≤ 4)]
  · rw [R5,
      isAllowed_reject _ id t6 ⟨5, t1 + w⟩ (storeSet_same _ _ _) (Nat.not_lt.mpr h6) (by decide : (5 : Nat) ≤ 5)]
  · rw [R6,
      isAllowed_reject _ id t7 ⟨5, t1 + w⟩ (storeSet_same _ _ _) (Nat.not_lt.mpr h7) (by decide : (5 : Nat) ≤ 5),
      R5]
  · rw [R6, isAllowed_renew _ id t8 ⟨5, t1 + w⟩ (storeSet_same _ _ _) h8]
  · rw [R6, isAllowed_renew _ id t8 ⟨5, t1 + w⟩ (storeSet_same _ _ _) h8]
    exact storeSet_same _ _ _

/-- Witness for C3: with `windowMs = 1000` and calls at times 0..5, the
6th call is rejected with `remaining = 0` and an unchanged limiter. -/
theorem rateLimiter_window_behavior_witness :
    (rlAfter ⟨1000, 5⟩ "a" [0, 1, 2, 3, 4]).isAllowed "a" 5 =
      (⟨false, 0, 0 + 1000⟩, rlAfter ⟨1000, 5⟩ "a" [0, 1, 2, 3, 4]) :=
  (rateLimiter_window_behavior 1000 "a" 0 1 2 3 4 5 6 1500 (by decide) (by decide)
    (by decide) (by decide) (by decide) (by decide) (by decide)).2.2.2.2.2.1

/-- Claim C7: starting from a fresh limiter whose configured maximum is at
least 1 (both source instances use 5 and 100), after any sequence of
`isAllowed` and `cleanup` calls every stored record satisfies
`count ≤ maxRequests` — a rejected request never pushes a count past the
limit — and any `cleanup` leaves only records whose `resetTime` is not
earlier than the cleanup time. -/
theorem rateLimiter_invariants (cfg : RateLimitConfig) (hmax : 1 ≤ cfg.maxRequests)
    (ops : List RLOp) :
    CountBounded (runOps (initialLimiter cfg) ops) ∧
    (∀ now k e, ((runOps (initialLimiter cfg) ops).cleanup now).store k = some e →
      now ≤ e.resetTime) := by
  have main : ∀ (ops : List RLOp) (rl : RateLimiter), rl.config = cfg → CountBounded rl →
      CountBounded (runOps rl ops) ∧ (runOps rl ops).config = cfg := by
    intro ops
    induction ops with
    | nil => exact fun rl hcfg hb => ⟨hb, hcfg⟩
    | cons op rest ih =>
      intro rl hcfg hb
      cases op with
      | request reqId reqNow =>
        refine ih ((rl.isAllowed reqId reqNow).2) ?_ ?_
        · rw [isAllowed_config, hcfg]
        · exact countBounded_isAllowed rl reqId reqNow (hcfg ▸ hmax) hb
      | sweep sweepNow =>
        exact ih (rl.cleanup sweepNow) hcfg (countBounded_cleanup rl sweepNow hb)
  obtain ⟨hb, -⟩ := main ops (initialLimiter cfg) rfl (fun k e he => by cases he)
  exact ⟨hb, fun now k e he => cleanup_resetTime _ now k e he⟩

/-- Witness for C7: the invariant holds on the auth limiter configuration
after a concrete request/cleanup sequence. -/
theorem rateLimiter_invariants_witness :
    CountBounded (runOps (initialLimiter ⟨900000, 5⟩)
      [RLOp.request "a" 0, RLOp.request "a" 1, RLOp.sweep 2, RLOp.request "a" 3]) :=
  (rateLimiter_invariants ⟨900000, 5⟩ (by decide)
    [RLOp.request "a" 0, RLOp.request "a" 1, RLOp.sweep 2, RLOp.request "a" 3]).1

end KtlianWears
